import Mathlib

/-!
Verification of the einzel-lens-simulator repository against its
natural-language specification.

The repository's only source file is `src/App.js`, a React form with two
submit handlers (`handleFocalLengthCalculation`, `handleRayPlotting`) that
POST the form fields to a backend and display the reply.  The numerical
core described by the specification (geometry validation, potential field,
focal-length solver, trajectory integrator) is not part of the repository;
where a claim is decided by that missing core we model it from the
specification's words (definitions marked `Modelled from the spec:`).

All numeric quantities are embedded as rationals (`ℚ`).
-/

namespace EinzelLens

/-! ## Presentation layer: shallow embedding of `src/App.js` -/

/-- A value carried in a JSON request body: either a raw string (what the
form fields hold) or a parsed sequence of numbers.  `App.js` only ever
places raw strings in a body; the `nums` constructor exists so that the
specification's parsed-sequence reading can be stated and compared. -/
inductive FieldValue where
  | str (s : String)
  | nums (xs : List ℚ)
deriving DecidableEq, Repr

/-- The eight controlled form fields of the React component (`inputs`
state object in `App.js`), all plain text. -/
structure Inputs where
  spacings : String
  thicknesses : String
  diameter : String
  voltages : String
  angle : String
  offset : String
  energy : String
  numDatapoints : String
deriving DecidableEq, Repr

/-- The component's full visible state: the form fields plus the two
display slots (`focalLength` text and `plotImage` source). -/
structure AppState where
  inputs : Inputs
  focalLength : String
  plotImage : String
deriving DecidableEq, Repr

/-- Transport failures (axios rejections) are opaque to the handler; an
arbitrary message string suffices. -/
abbrev RequestError := String

/-- Response data read by `handleFocalLengthCalculation`: the handler
interpolates `response.data.focal_length` into a template string, so the
field is modelled post-coercion as the string that interpolation yields. -/
structure FocalResponseData where
  focal_length : String
deriving DecidableEq, Repr

/-- Response data read by `handleRayPlotting`: the handler reads only
`response.data.image`.  A `points` field is included as an optional extra
payload member so that claims about geometric point data being (or not
being) the delivered result can be stated; the handler never touches it. -/
structure PlotResponseData where
  image : String
  points : Option (List (ℚ × ℚ))
deriving DecidableEq, Repr

/-- The request body built by `handleFocalLengthCalculation`
(`App.js` lines 26–31): the four geometry fields, verbatim. -/
def focalLengthRequestBody (i : Inputs) : List (String × FieldValue) :=
  [("spacings", FieldValue.str i.spacings),
   ("thicknesses", FieldValue.str i.thicknesses),
   ("diameter", FieldValue.str i.diameter),
   ("voltages", FieldValue.str i.voltages)]

/-- The request body built by `handleRayPlotting` (`App.js` lines 41–50):
all eight form fields, verbatim. -/
def plotRayRequestBody (i : Inputs) : List (String × FieldValue) :=
  [("spacings", FieldValue.str i.spacings),
   ("thicknesses", FieldValue.str i.thicknesses),
   ("diameter", FieldValue.str i.diameter),
   ("voltages", FieldValue.str i.voltages),
   ("angle", FieldValue.str i.angle),
   ("offset", FieldValue.str i.offset),
   ("energy", FieldValue.str i.energy),
   ("numDatapoints", FieldValue.str i.numDatapoints)]

/-- `handleFocalLengthCalculation` (`App.js` lines 23–36).  The transport
(`axios.post`) is abstracted as a function from the request body to a
result.  Output: the new component state, the console log entries emitted,
and the error (if any) re-thrown past the handler.  On success the handler
sets the `focalLength` text; on failure it logs and returns normally
(the `catch` block neither re-throws nor touches state). -/
def handleFocalLengthCalculation
    (post : List (String × FieldValue) → Except RequestError FocalResponseData)
    (s : AppState) : AppState × List (String × RequestError) × Option RequestError :=
  match post (focalLengthRequestBody s.inputs) with
  | Except.ok data =>
      ({ s with focalLength := "System Focal Length: " ++ data.focal_length ++ " meters" },
       [], none)
  | Except.error e =>
      (s, [("Error fetching focal length:", e)], none)

/-- `handleRayPlotting` (`App.js` lines 38–55).  On success the handler
stores `response.data.image` into the `plotImage` slot; on failure it logs
and returns normally. -/
def handleRayPlotting
    (post : List (String × FieldValue) → Except RequestError PlotResponseData)
    (s : AppState) : AppState × List (String × RequestError) × Option RequestError :=
  match post (plotRayRequestBody s.inputs) with
  | Except.ok data =>
      ({ s with plotImage := data.image }, [], none)
  | Except.error e =>
      (s, [("Error plotting ray:", e)], none)

/-- A concrete filled-in form, used by counterexamples and witnesses. -/
def sampleInputs : Inputs :=
  { spacings := "0.01,0.02"
    thicknesses := "0.005,0.005"
    diameter := "0.02"
    voltages := "0,1000"
    angle := "0.05"
    offset := "0.001"
    energy := "200"
    numDatapoints := "100" }

/-- A concrete component state with the sample form and empty displays. -/
def sampleState : AppState :=
  { inputs := sampleInputs, focalLength := "", plotImage := "" }

/-- A transport that always fails, for exercising the `catch` branches. -/
def failingFocalPost : List (String × FieldValue) → Except RequestError FocalResponseData :=
  fun _ => Except.error "network down"

/-- A transport for the ray endpoint that always fails. -/
def failingPlotPost : List (String × FieldValue) → Except RequestError PlotResponseData :=
  fun _ => Except.error "network down"

/-- First of two backend replies for the ray endpoint that agree on the
`points` payload (both absent) but carry different rendered images. -/
def plotRespA : PlotResponseData :=
  { image := "data:image/png;base64,AAAA", points := none }

/-- Second such reply. -/
def plotRespB : PlotResponseData :=
  { image := "data:image/png;base64,BBBB", points := none }

/-! ## Claims about the presentation layer -/

/-- Claim C1, counterexample.  The claim says every submission's request
body holds parsed numeric sequences, never the verbatim form-field
strings.  On the concrete sample form, the focal-length body contains the
verbatim string "0.01,0.02" under the key "spacings", and a string value
is not a parsed numeric sequence. -/
theorem c1_counterexample :
    ("spacings", FieldValue.str "0.01,0.02") ∈ focalLengthRequestBody sampleInputs ∧
    ∀ xs : List ℚ, FieldValue.str "0.01,0.02" ≠ FieldValue.nums xs := by
  constructor
  · simp [focalLengthRequestBody, sampleInputs]
  · intro xs h
    exact FieldValue.noConfusion h

/-- Claim C1, amended: the two handlers place the verbatim form-field
strings into their request bodies; no parsing into numeric sequences is
performed by the presentation layer before calling the backend. -/
theorem c1_amended_raw_strings (i : Inputs) :
    (focalLengthRequestBody i).map Prod.snd =
      [FieldValue.str i.spacings, FieldValue.str i.thicknesses,
       FieldValue.str i.diameter, FieldValue.str i.voltages] ∧
    (plotRayRequestBody i).map Prod.snd =
      [FieldValue.str i.spacings, FieldValue.str i.thicknesses,
       FieldValue.str i.diameter, FieldValue.str i.voltages,
       FieldValue.str i.angle, FieldValue.str i.offset,
       FieldValue.str i.energy, FieldValue.str i.numDatapoints] :=
  ⟨rfl, rfl⟩

/-- Claim C2, counterexample.  The claim says the trace result delivered
to the consumer is a sequence of points and never a rendered raster image,
with rendering done client-side from the points.  But two backend replies
that agree on their geometric `points` payload and differ only in the
pre-rendered `image` string produce different displayed plots, and each
displayed plot is the verbatim raster payload — so what the handler
consumes and displays is the image, not the points. -/
theorem c2_counterexample :
    plotRespA.points = plotRespB.points ∧
    (handleRayPlotting (fun _ => Except.ok plotRespA) sampleState).1.plotImage =
      "data:image/png;base64,AAAA" ∧
    (handleRayPlotting (fun _ => Except.ok plotRespB) sampleState).1.plotImage =
      "data:image/png;base64,BBBB" ∧
    (handleRayPlotting (fun _ => Except.ok plotRespA) sampleState).1.plotImage ≠
      (handleRayPlotting (fun _ => Except.ok plotRespB) sampleState).1.plotImage := by
  refine ⟨rfl, rfl, rfl, ?_⟩
  decide

/-- Claim C2, amended: the ray-plot response delivers a pre-rendered
image; `handleRayPlotting` stores `response.data.image` verbatim as the
displayed plot, and any geometric point data in the response has no
influence on the display. -/
theorem c2_amended_image_payload
    (post : List (String × FieldValue) → Except RequestError PlotResponseData)
    (s : AppState) (resp : PlotResponseData)
    (h : post (plotRayRequestBody s.inputs) = Except.ok resp) :
    (handleRayPlotting post s).1.plotImage = resp.image ∧
    ∀ pts : Option (List (ℚ × ℚ)),
      (handleRayPlotting (fun _ => Except.ok (PlotResponseData.mk resp.image pts)) s).1.plotImage =
        resp.image := by
  constructor
  · simp [handleRayPlotting, h]
  · intro pts
    simp [handleRayPlotting]

/-- Claim C2, witness for the amended theorem at a concrete transport. -/
theorem c2_witness :
    (handleRayPlotting (fun _ => Except.ok plotRespA) sampleState).1.plotImage =
      plotRespA.image :=
  (c2_amended_image_payload (fun _ => Except.ok plotRespA) sampleState plotRespA rfl).1

/-- Claim C3, counterexample.  The claim says a failure is propagated to
the caller unchanged and no handler catches and discards it.  With a
transport that fails with "network down", `handleFocalLengthCalculation`
returns normally and re-throws nothing: no error is propagated. -/
theorem c3_counterexample :
    failingFocalPost (focalLengthRequestBody sampleState.inputs) =
      Except.error "network down" ∧
    (handleFocalLengthCalculation failingFocalPost sampleState).2.2 = none ∧
    ∀ e : RequestError,
      (handleFocalLengthCalculation failingFocalPost sampleState).2.2 ≠ some e := by
  refine ⟨rfl, rfl, ?_⟩
  intro e h
  exact Option.noConfusion h

/-- Claim C3, amended: each handler catches a transport failure in its
`catch` block, logs it to the console, leaves the displayed state
untouched (no fallback value is substituted) and re-throws nothing. -/
theorem c3_amended_catch_and_log
    (postF : List (String × FieldValue) → Except RequestError FocalResponseData)
    (postR : List (String × FieldValue) → Except RequestError PlotResponseData)
    (s : AppState) (e₁ e₂ : RequestError)
    (hf : postF (focalLengthRequestBody s.inputs) = Except.error e₁)
    (hr : postR (plotRayRequestBody s.inputs) = Except.error e₂) :
    handleFocalLengthCalculation postF s = (s, [("Error fetching focal length:", e₁)], none) ∧
    handleRayPlotting postR s = (s, [("Error plotting ray:", e₂)], none) := by
  constructor
  · simp [handleFocalLengthCalculation, hf]
  · simp [handleRayPlotting, hr]

/-- Claim C3, witness for the amended theorem at a concrete failing
transport. -/
theorem c3_witness :
    handleFocalLengthCalculation failingFocalPost sampleState =
      (sampleState, [("Error fetching focal length:", "network down")], none) ∧
    handleRayPlotting failingPlotPost sampleState =
      (sampleState, [("Error plotting ray:", "network down")], none) :=
  c3_amended_catch_and_log failingFocalPost failingPlotPost sampleState
    "network down" "network down" rfl rfl

/-- Claim C9: the focal-length request body is built from the four
geometry fields only, so two form states agreeing on spacings,
thicknesses, diameter and voltages produce identical payloads; and with
the same (deterministic) backend and the same previously displayed text,
the displayed focal-length result is identical too. -/
theorem c9_focal_request_independence (a b : Inputs)
    (h₁ : a.spacings = b.spacings) (h₂ : a.thicknesses = b.thicknesses)
    (h₃ : a.diameter = b.diameter) (h₄ : a.voltages = b.voltages) :
    focalLengthRequestBody a = focalLengthRequestBody b ∧
    ∀ (post : List (String × FieldValue) → Except RequestError FocalResponseData)
      (s₁ s₂ : AppState), s₁.inputs = a → s₂.inputs = b →
      s₁.focalLength = s₂.focalLength →
      (handleFocalLengthCalculation post s₁).1.focalLength =
        (handleFocalLengthCalculation post s₂).1.focalLength := by
  have hbody : focalLengthRequestBody a = focalLengthRequestBody b := by
    simp [focalLengthRequestBody, h₁, h₂, h₃, h₄]
  refine ⟨hbody, ?_⟩
  intro post s₁ s₂ hs₁ hs₂ hfl
  simp only [handleFocalLengthCalculation, hs₁, hs₂, hbody]
  cases post (focalLengthRequestBody b) with
  | ok data => simp
  | error e => simpa using hfl

/-- Claim C9, witness: two sample forms differing only in the four
trajectory fields yield the same payload and the same displayed text. -/
theorem c9_witness :
    focalLengthRequestBody sampleInputs =
      focalLengthRequestBody
        { sampleInputs with angle := "0.9", offset := "0.5", energy := "1", numDatapoints := "7" } ∧
    (handleFocalLengthCalculation failingFocalPost sampleState).1.focalLength =
      (handleFocalLengthCalculation failingFocalPost
        { sampleState with inputs :=
          { sampleInputs with angle := "0.9", offset := "0.5", energy := "1", numDatapoints := "7" } }).1.focalLength := by
  have h := c9_focal_request_independence sampleInputs
    { sampleInputs with angle := "0.9", offset := "0.5", energy := "1", numDatapoints := "7" }
    rfl rfl rfl rfl
  exact ⟨h.1, h.2 failingFocalPost sampleState
    { sampleState with inputs :=
      { sampleInputs with angle := "0.9", offset := "0.5", energy := "1", numDatapoints := "7" } }
    rfl rfl rfl⟩

/-- Claim C10: when a focal-length or ray-plot request fails, the catch
branches only log the error — the component state, in particular the
previously shown `focalLength` text and `plotImage`, is unchanged. -/
theorem c10_error_preserves_display
    (postF : List (String × FieldValue) → Except RequestError FocalResponseData)
    (postR : List (String × FieldValue) → Except RequestError PlotResponseData)
    (s : AppState) (e₁ e₂ : RequestError)
    (hf : postF (focalLengthRequestBody s.inputs) = Except.error e₁)
    (hr : postR (plotRayRequestBody s.inputs) = Except.error e₂) :
    (handleFocalLengthCalculation postF s).1 = s ∧
    (handleRayPlotting postR s).1 = s ∧
    (handleFocalLengthCalculation postF s).2.1 = [("Error fetching focal length:", e₁)] ∧
    (handleRayPlotting postR s).2.1 = [("Error plotting ray:", e₂)] := by
  refine ⟨?_, ?_, ?_, ?_⟩ <;> simp [handleFocalLengthCalculation, handleRayPlotting, hf, hr]

/-- Claim C10, witness at a concrete failing transport: the sample state
survives both failed submissions unchanged. -/
theorem c10_witness :
    (handleFocalLengthCalculation failingFocalPost sampleState).1 = sampleState ∧
    (handleRayPlotting failingPlotPost sampleState).1 = sampleState ∧
    (handleFocalLengthCalculation failingFocalPost sampleState).2.1 =
      [("Error fetching focal length:", "network down")] ∧
    (handleRayPlotting failingPlotPost sampleState).2.1 =
      [("Error plotting ray:", "network down")] :=
  c10_error_preserves_display failingFocalPost failingPlotPost sampleState
    "network down" "network down" rfl rfl

/-! ## Spec-modelled numerical core

The repository contains no implementation of the core (§2: "the visible
repository is ~100 lines of pure presentation code and contains no
implementation of the core"), so the definitions below are modelled from
the specification's words (§3–§4, §6–§8). -/

/-- Modelled from the spec: the error taxonomy of §7 — `ValidationError`,
`DomainError`, `NumericalInstabilityError`. -/
inductive SimError where
  | validationError
  | domainError
  | numericalInstabilityError
deriving DecidableEq, Repr

/-- Modelled from the spec: §3's LensStack — an ordered sequence of
electrode segments, each a (spacing, thickness) pair, plus the shared
aperture diameter. -/
structure LensStack where
  segments : List (ℚ × ℚ)
  diameter : ℚ
deriving DecidableEq, Repr

/-- Modelled from the spec: §3's VoltageProfile — one voltage per
electrode segment, aligned with the LensStack. -/
abbrev VoltageProfile := List ℚ

/-- Modelled from the spec: the result of `focal_length` (§3, §6) — a
scalar in meters or the "undefined/infinite" sentinel for a
non-converging lens. -/
inductive FocalResult where
  | undefined
  | value (f : ℚ)
deriving DecidableEq, Repr

/-- Modelled from the spec: §4.1's `build` — validates the electrode
stack description and the voltage profile, failing with ValidationError
when sequences have mismatched lengths, any spacing is negative, any
thickness or the diameter is ≤ 0, or any sequence is empty; otherwise a
pure construction with no side effects. -/
def build (sp th : List ℚ) (d : ℚ) (vs : List ℚ) :
    Except SimError (LensStack × VoltageProfile) :=
  if sp.length ≠ th.length ∨ sp.length ≠ vs.length then Except.error SimError.validationError
  else if ∃ x ∈ sp, x < 0 then Except.error SimError.validationError
  else if ∃ x ∈ th, x ≤ 0 then Except.error SimError.validationError
  else if d ≤ 0 then Except.error SimError.validationError
  else if sp = [] ∨ th = [] ∨ vs = [] then Except.error SimError.validationError
  else Except.ok (⟨sp.zip th, d⟩, vs)

/-- Modelled from the spec: the axial extent z_max spanned by the stack —
the sum of all spacings and thicknesses (§3). -/
def zmaxOf (st : LensStack) : ℚ :=
  (st.segments.map (fun p => p.1 + p.2)).sum

/-- Modelled from the spec: the C² "smoothed ramp" used for the potential
transition across a gap (§4.2) — the quintic 6t⁵ − 15t⁴ + 10t³, which is
0 at t=0, 1 at t=1, with vanishing first and second derivatives at both
ends, making V twice-differentiable across gap boundaries. -/
def ramp (t : ℚ) : ℚ := 6 * t ^ 5 - 15 * t ^ 4 + 10 * t ^ 3

/-- Modelled from the spec: first derivative of the gap ramp. -/
def rampD1 (t : ℚ) : ℚ := 30 * t ^ 4 - 60 * t ^ 3 + 30 * t ^ 2

/-- Modelled from the spec: second derivative of the gap ramp. -/
def rampD2 (t : ℚ) : ℚ := 120 * t ^ 3 - 180 * t ^ 2 + 60 * t

/-- Modelled from the spec: §4.2's on-axis potential, walking the stack.
`prev` is the voltage of the previous electrode (initialized to the first
voltage, so the leading gap is a constant ramp from v₀ to v₀).  Inside a
gap of length `sp` the potential ramps from `prev` to the next electrode's
voltage as a function of the gap-local coordinate t = z/sp only
(translation-invariant within the gap, §4.2); inside an electrode it is
the electrode's voltage with vanishing derivatives.  Returns
(V, V', V''). -/
def fieldAt : ℚ → List ((ℚ × ℚ) × ℚ) → ℚ → ℚ × ℚ × ℚ
  | prev, [], _ => (prev, 0, 0)
  | prev, ((sp, th), v) :: rest, z =>
      if z < sp then
        (prev + (v - prev) * ramp (z / sp),
         (v - prev) * rampD1 (z / sp) / sp,
         (v - prev) * rampD2 (z / sp) / (sp * sp))
      else if z ≤ sp + th then (v, 0, 0)
      else fieldAt v rest (z - sp - th)

/-- Modelled from the spec: the PotentialField function z ↦ (V, V', V'')
derived from a LensStack and its VoltageProfile (§4.2), total over ℚ. -/
def fieldFn (st : LensStack) (vp : VoltageProfile) : ℚ → ℚ × ℚ × ℚ :=
  fun z => fieldAt (vp.headD 0) (st.segments.zip vp) z

/-- Modelled from the spec: §4.2's `potential_at`, which fails with
DomainError when z is outside [0, z_max]. -/
def potential_at (st : LensStack) (vp : VoltageProfile) (z : ℚ) :
    Except SimError (ℚ × ℚ × ℚ) :=
  if z < 0 ∨ zmaxOf st < z then Except.error SimError.domainError
  else Except.ok (fieldFn st vp z)

/-- Modelled from the spec: the right-hand side of the paraxial ray
equation (§4.3), r'' = −(V'/(2V)) r' − (V''/(4V)) r, evaluated from a
field function at axial position z, radius r and slope s = r'. -/
def accel (f : ℚ → ℚ × ℚ × ℚ) (z r s : ℚ) : ℚ :=
  -((f z).2.1 / (2 * (f z).1)) * s - ((f z).2.2 / (4 * (f z).1)) * r

/-- Modelled from the spec: the sanity bound on intermediate |r| and |r'|
beyond which integration is declared divergent (§4.3, §4.4). -/
def sanityBound : ℚ := 1000000

/-- Modelled from the spec: the configured epsilon within which the exit
slope r'(z_max) counts as zero, making the lens non-converging (§4.3). -/
def epsSlope : ℚ := 1 / 1000000

/-- Modelled from the spec: the configured minimum axial resolution from
which the solver's step count is derived (§4.3). -/
def minRes : ℚ := 1 / 100

/-- Modelled from the spec: the solver's fixed step count, derived from
the domain length and the configured minimum resolution (§4.3). -/
def stepCount (zm : ℚ) : ℕ :=
  max 4 (Int.toNat ⌈zm / minRes⌉)

/-- Modelled from the spec: fixed-step integration of the paraxial ray
equation (§4.3) over k steps of size h starting at axial position z with
state (r, r'); fails with NumericalInstabilityError when an intermediate
|r| or |r'| exceeds the sanity bound. -/
def integrateRay (f : ℚ → ℚ × ℚ × ℚ) (h : ℚ) : ℕ → ℚ → ℚ × ℚ → Except SimError (ℚ × ℚ)
  | 0, _, st => Except.ok st
  | k + 1, z, st =>
      if sanityBound < |st.1| ∨ sanityBound < |st.2| then
        Except.error SimError.numericalInstabilityError
      else
        integrateRay f h k (z + h) (st.1 + h * st.2, st.2 + h * accel f z st.1 st.2)

/-- Modelled from the spec: §4.3's focal-length computation from a field
function, the domain length z_max and the working distance from the last
electrode's exit plane to z_max.  Integrates the reference ray
(r(0)=1, r'(0)=0) through z_max; when |r'(z_max)| is within the configured
epsilon the lens is non-converging and the "undefined" sentinel is
returned, otherwise f = −r(z_max)/r'(z_max) plus the working distance. -/
def focalSolveWith (f : ℚ → ℚ × ℚ × ℚ) (zm wd : ℚ) : Except SimError FocalResult :=
  match integrateRay f (zm / (stepCount zm : ℚ)) (stepCount zm) 0 (1, 0) with
  | Except.error e => Except.error e
  | Except.ok (r, s) =>
      if |s| ≤ epsSlope then Except.ok FocalResult.undefined
      else Except.ok (FocalResult.value (wd + -(r / s)))

/-- Modelled from the spec: the last electrode's exit plane.  The stack
layout is gap₀, electrode₀, gap₁, electrode₁, …, so the last electrode's
far face sits at z_max. -/
def exitPlaneOf (st : LensStack) : ℚ := zmaxOf st

/-- Modelled from the spec: §4.5's `focal_length` facade generalized over
the potential-field construction, so that "validation happens before any
field computation" is expressible: the result on invalid input is the
same for every field function. -/
def focal_lengthWith (g : LensStack → VoltageProfile → ℚ → ℚ × ℚ × ℚ)
    (sp th : List ℚ) (d : ℚ) (vs : List ℚ) : Except SimError FocalResult :=
  match build sp th d vs with
  | Except.error e => Except.error e
  | Except.ok (st, vp) =>
      focalSolveWith (g st vp) (zmaxOf st) (zmaxOf st - exitPlaneOf st)

/-- Modelled from the spec: §6's `focal_length` operation. -/
def focal_length (sp th : List ℚ) (d : ℚ) (vs : List ℚ) : Except SimError FocalResult :=
  focal_lengthWith fieldFn sp th d vs

/-- Modelled from the spec: §4.4's energy handling — the trajectory ODE
sees the energy-conserving effective potential energy + (V(z) − V(0)),
so the release energy sets the potential reference; the derivatives are
those of V. -/
def shiftField (f : ℚ → ℚ × ℚ × ℚ) (energy : ℚ) : ℚ → ℚ × ℚ × ℚ :=
  fun z => (energy + ((f z).1 - (f 0).1), (f z).2.1, (f z).2.2)

/-- Modelled from the spec: §4.4's sampling integrator — k fixed steps of
size h from axial position z with state (r, r'), recording a (z, r)
sample before every step and one final sample; fails with
NumericalInstabilityError when an intermediate |r| or |r'| exceeds the
sanity bound. -/
def traceRun (f : ℚ → ℚ × ℚ × ℚ) (h : ℚ) : ℕ → ℚ → ℚ × ℚ → Except SimError (List (ℚ × ℚ))
  | 0, z, st => Except.ok [(z, st.1)]
  | k + 1, z, st =>
      if sanityBound < |st.1| ∨ sanityBound < |st.2| then
        Except.error SimError.numericalInstabilityError
      else
        match traceRun f h k (z + h) (st.1 + h * st.2, st.2 + h * accel f z st.1 st.2) with
        | Except.ok rest => Except.ok ((z, st.1) :: rest)
        | Except.error e => Except.error e

/-- Modelled from the spec: §4.4/§6's `trace` operation generalized over
the potential-field construction (see `focal_lengthWith`).  Validates the
geometry (§4.1), fails with ValidationError when numDatapoints < 2 or
energy ≤ 0, and otherwise produces numDatapoints samples evenly spaced in
z from 0 to z_max with initial state (offset, angle). -/
def traceWith (g : LensStack → VoltageProfile → ℚ → ℚ × ℚ × ℚ)
    (sp th : List ℚ) (d : ℚ) (vs : List ℚ)
    (angle offset energy : ℚ) (n : ℕ) : Except SimError (List (ℚ × ℚ)) :=
  match build sp th d vs with
  | Except.error e => Except.error e
  | Except.ok (st, vp) =>
      if n < 2 ∨ energy ≤ 0 then Except.error SimError.validationError
      else
        traceRun (shiftField (g st vp) energy) (zmaxOf st / ((n : ℚ) - 1)) (n - 1)
          0 (offset, angle)

/-- Modelled from the spec: §6's `trace` operation. -/
def trace (sp th : List ℚ) (d : ℚ) (vs : List ℚ)
    (angle offset energy : ℚ) (n : ℕ) : Except SimError (List (ℚ × ℚ)) :=
  traceWith fieldFn sp th d vs angle offset energy n

/-! ## Helper lemmas about the core model -/

/-- `build` only ever fails with ValidationError. -/
lemma build_error_eq (sp th : List ℚ) (d : ℚ) (vs : List ℚ) (e : SimError)
    (hb : build sp th d vs = Except.error e) : e = SimError.validationError := by
  unfold build at hb
  split_ifs at hb <;> simp_all

/-- Inversion of a successful `build`: the constructed values and all the
validated facts about the input. -/
lemma build_ok_inv (sp th : List ℚ) (d : ℚ) (vs : List ℚ) (st : LensStack)
    (vp : VoltageProfile) (hb : build sp th d vs = Except.ok (st, vp)) :
    st.segments = sp.zip th ∧ st.diameter = d ∧ vp = vs ∧
    sp.length = th.length ∧ sp.length = vs.length ∧
    (∀ x ∈ sp, 0 ≤ x) ∧ (∀ x ∈ th, 0 < x) ∧ 0 < d ∧
    sp ≠ [] ∧ th ≠ [] ∧ vs ≠ [] := by
  unfold build at hb
  split_ifs at hb with h₁ h₂ h₃ h₄ h₅
  simp only [Except.ok.injEq, Prod.mk.injEq] at hb
  obtain ⟨hst, hvp⟩ := hb
  subst hst
  subst hvp
  push_neg at h₁ h₂ h₃ h₄ h₅
  exact ⟨rfl, rfl, rfl, h₁.1, h₁.2, h₂, h₃, h₄, h₅.1, h₅.2.1, h₅.2.2⟩

/-- Dispatch lemma: `traceWith` after a failed `build`. -/
lemma traceWith_error (g : LensStack → VoltageProfile → ℚ → ℚ × ℚ × ℚ)
    (sp th : List ℚ) (d : ℚ) (vs : List ℚ) (angle offset energy : ℚ) (n : ℕ)
    (e : SimError) (hb : build sp th d vs = Except.error e) :
    traceWith g sp th d vs angle offset energy n = Except.error e := by
  unfold traceWith
  rw [hb]

/-- Dispatch lemma: `traceWith` after a successful `build`. -/
lemma traceWith_ok (g : LensStack → VoltageProfile → ℚ → ℚ × ℚ × ℚ)
    (sp th : List ℚ) (d : ℚ) (vs : List ℚ) (angle offset energy : ℚ) (n : ℕ)
    (st : LensStack) (vp : VoltageProfile) (hb : build sp th d vs = Except.ok (st, vp)) :
    traceWith g sp th d vs angle offset energy n =
      if n < 2 ∨ energy ≤ 0 then Except.error SimError.validationError
      else traceRun (shiftField (g st vp) energy) (zmaxOf st / ((n : ℚ) - 1)) (n - 1)
        0 (offset, angle) := by
  unfold traceWith
  rw [hb]

/-- Dispatch lemma: `focal_lengthWith` after a failed `build`. -/
lemma focal_lengthWith_error (g : LensStack → VoltageProfile → ℚ → ℚ × ℚ × ℚ)
    (sp th : List ℚ) (d : ℚ) (vs : List ℚ) (e : SimError)
    (hb : build sp th d vs = Except.error e) :
    focal_lengthWith g sp th d vs = Except.error e := by
  unfold focal_lengthWith
  rw [hb]

/-- Dispatch lemma: `focal_lengthWith` after a successful `build`. -/
lemma focal_lengthWith_ok (g : LensStack → VoltageProfile → ℚ → ℚ × ℚ × ℚ)
    (sp th : List ℚ) (d : ℚ) (vs : List ℚ) (st : LensStack) (vp : VoltageProfile)
    (hb : build sp th d vs = Except.ok (st, vp)) :
    focal_lengthWith g sp th d vs =
      focalSolveWith (g st vp) (zmaxOf st) (zmaxOf st - exitPlaneOf st) := by
  unfold focal_lengthWith
  rw [hb]

/-- Dispatch lemma: `focalSolveWith` once the integration result is known. -/
lemma focalSolveWith_ok (f : ℚ → ℚ × ℚ × ℚ) (zm wd r s : ℚ)
    (hint : integrateRay f (zm / (stepCount zm : ℚ)) (stepCount zm) 0 (1, 0) =
      Except.ok (r, s)) :
    focalSolveWith f zm wd =
      if |s| ≤ epsSlope then Except.ok FocalResult.undefined
      else Except.ok (FocalResult.value (wd + -(r / s))) := by
  unfold focalSolveWith
  rw [hint]

/-- Under a voltage profile whose entries all equal `c`, the potential
walk returns the constant field (c, 0, 0) at every axial position. -/
lemma fieldAt_const (c : ℚ) :
    ∀ segs : List ((ℚ × ℚ) × ℚ), (∀ p ∈ segs, p.2 = c) →
      ∀ z : ℚ, fieldAt c segs z = (c, 0, 0) := by
  intro segs
  induction segs with
  | nil => intro _ z; rfl
  | cons p rest ih =>
    intro hall z
    obtain ⟨⟨sp, th⟩, v⟩ := p
    have hv : v = c := hall _ (List.mem_cons_self _ _)
    subst hv
    simp only [fieldAt]
    split_ifs with h₁ h₂
    · simp
    · rfl
    · exact ih (fun q hq => hall q (List.mem_cons_of_mem _ hq)) (z - sp - th)

/-- The PotentialField of a uniform voltage profile is the constant field
(c, 0, 0). -/
lemma fieldFn_const (st : LensStack) (vp : VoltageProfile) (c : ℚ)
    (hne : vp ≠ []) (hc : ∀ v ∈ vp, v = c) :
    ∀ z : ℚ, fieldFn st vp z = (c, 0, 0) := by
  intro z
  unfold fieldFn
  have hhead : vp.headD 0 = c := by
    cases vp with
    | nil => exact absurd rfl hne
    | cons v t => simpa using hc v (List.mem_cons_self v t)
  rw [hhead]
  exact fieldAt_const c _ (fun p hp => hc p.2 (List.of_mem_zip hp).2) z

/-- The paraxial acceleration vanishes identically over a constant
field: both ODE coefficients have zero numerators. -/
lemma accel_const (f : ℚ → ℚ × ℚ × ℚ) (c : ℚ) (hf : ∀ z, f z = (c, 0, 0))
    (z r s : ℚ) : accel f z r s = 0 := by
  simp [accel, hf z]

/-- Fixed-step integration of the reference ray over a constant field
stays at (1, 0) forever: the acceleration is identically zero and the
sanity bound is never hit. -/
lemma integrate_const (f : ℚ → ℚ × ℚ × ℚ) (c : ℚ) (hf : ∀ z, f z = (c, 0, 0))
    (h : ℚ) : ∀ (k : ℕ) (z : ℚ), integrateRay f h k z (1, 0) = Except.ok (1, 0) := by
  intro k
  induction k with
  | zero => intro z; rfl
  | succ k ih =>
    intro z
    simp only [integrateRay]
    rw [if_neg (by norm_num [sanityBound])]
    rw [accel_const f c hf z 1 0]
    simpa using ih (z + h)

/-- The z-coordinates of a successful `traceRun` are the arithmetic grid
z, z+h, …, z+k·h. -/
lemma traceRun_ok_map_fst (f : ℚ → ℚ × ℚ × ℚ) (h : ℚ) :
    ∀ (k : ℕ) (z : ℚ) (st : ℚ × ℚ) (pts : List (ℚ × ℚ)),
      traceRun f h k z st = Except.ok pts →
      pts.map Prod.fst = (List.range (k + 1)).map (fun i : ℕ => z + (i : ℚ) * h) := by
  intro k
  induction k with
  | zero =>
    intro z st pts hpts
    simp only [traceRun, Except.ok.injEq] at hpts
    subst hpts
    simp [List.range_succ]
  | succ k ih =>
    intro z st pts hpts
    simp only [traceRun] at hpts
    split_ifs at hpts with hbound
    cases hrec : traceRun f h k (z + h) (st.1 + h * st.2, st.2 + h * accel f z st.1 st.2) with
    | error e => rw [hrec] at hpts; simp at hpts
    | ok rest =>
      rw [hrec] at hpts
      simp only [Except.ok.injEq] at hpts
      subst hpts
      have htail := ih (z + h) _ rest hrec
      rw [List.range_succ_eq_map]
      simp only [List.map_cons, List.map_map, htail, List.cons.injEq]
      constructor
      · push_cast
        ring
      · apply List.map_congr_left
        intro i _
        simp only [Function.comp_apply]
        push_cast
        ring

/-- Sum of the per-segment extents equals the sum of the spacings plus
the sum of the thicknesses, when the two lists are aligned. -/
lemma zip_sum_add : ∀ sp th : List ℚ, sp.length = th.length →
    ((sp.zip th).map (fun p => p.1 + p.2)).sum = sp.sum + th.sum := by
  intro sp
  induction sp with
  | nil =>
    intro th hlen
    cases th with
    | nil => simp
    | cons b tb => simp at hlen
  | cons a ta ih =>
    intro th hlen
    cases th with
    | nil => simp at hlen
    | cons b tb =>
      simp only [List.zip_cons_cons, List.map_cons, List.sum_cons]
      rw [ih tb (by simpa using hlen)]
      ring

/-- A validated stack has strictly positive axial extent: the spacings
are nonnegative, the thicknesses strictly positive, and there is at least
one segment. -/
lemma sums_pos (sp th : List ℚ) (hsp : ∀ x ∈ sp, 0 ≤ x) (hth : ∀ x ∈ th, 0 < x)
    (hne : th ≠ []) : 0 < sp.sum + th.sum :=
  add_pos_of_nonneg_of_pos (List.sum_nonneg hsp) (List.sum_pos th hth hne)

/-- One integration step over the sanity bound fails immediately with
NumericalInstabilityError. -/
lemma traceRun_diverge (f : ℚ → ℚ × ℚ × ℚ) (h : ℚ) (k : ℕ) (z : ℚ) (st : ℚ × ℚ)
    (hdiv : sanityBound < |st.1| ∨ sanityBound < |st.2|) :
    traceRun f h (k + 1) z st = Except.error SimError.numericalInstabilityError := by
  simp only [traceRun]
  rw [if_pos hdiv]

/-- A one-step trace within the sanity bound: the initial sample and one
Euler step. -/
lemma traceRun_one (f : ℚ → ℚ × ℚ × ℚ) (h z r s : ℚ)
    (hok : ¬(sanityBound < |r| ∨ sanityBound < |s|)) :
    traceRun f h 1 z (r, s) = Except.ok [(z, r), (z + h, r + h * s)] := by
  simp only [traceRun]
  rw [if_neg hok]

/-- Concrete single-electrode lens (gap 1 cm, thickness 1 cm, bore 2 cm,
5 V): `build` accepts it. -/
lemma build_single_ok : build [1/100] [1/100] (1/50) [5] =
    Except.ok (LensStack.mk [(1/100, 1/100)] (1/50), ([5] : List ℚ)) := by
  norm_num [build]

/-! ## Claims about the core -/

/-- Claim C4, counterexample.  The claim says every valid input with
numDatapoints ≥ 2 yields exactly numDatapoints samples; but §4.4 also
makes `trace` fail with NumericalInstabilityError when an intermediate
|r| exceeds the sanity bound, and a release offset of 2·10⁶ m passes
validation (build succeeds, numDatapoints = 2, energy = 1 > 0) yet makes
the integration diverge immediately, so no sample list is returned. -/
theorem c4_counterexample :
    trace [1/100] [1/100] (1/50) [5] 0 2000000 1 2 =
      Except.error SimError.numericalInstabilityError ∧
    ∀ pts : List (ℚ × ℚ),
      trace [1/100] [1/100] (1/50) [5] 0 2000000 1 2 ≠ Except.ok pts := by
  have h₁ : trace [1/100] [1/100] (1/50) [5] 0 2000000 1 2 =
      Except.error SimError.numericalInstabilityError := by
    unfold trace
    rw [traceWith_ok fieldFn _ _ _ _ 0 2000000 1 2 _ _ build_single_ok,
      if_neg (by norm_num)]
    exact traceRun_diverge _ _ 0 _ _ (by norm_num [sanityBound])
  refine ⟨h₁, fun pts hpts => ?_⟩
  rw [h₁] at hpts
  exact Except.noConfusion hpts

/-- Claim C4, amended: for every valid input with numDatapoints ≥ 2 on
which `trace` succeeds (does not fail with NumericalInstabilityError),
it returns exactly numDatapoints samples, evenly spaced in z, with
z-values strictly ascending, the first sample at z = 0 and the last at
z = z_max, the sum of all spacings and thicknesses. -/
theorem c4_amended_trace_samples (sp th : List ℚ) (d : ℚ) (vs : List ℚ)
    (angle offset energy : ℚ) (n : ℕ) (pts : List (ℚ × ℚ)) (hn : 2 ≤ n)
    (htr : trace sp th d vs angle offset energy n = Except.ok pts) :
    pts.length = n ∧
    pts.map Prod.fst =
      (List.range n).map (fun i : ℕ => (i : ℚ) * ((sp.sum + th.sum) / ((n : ℚ) - 1))) ∧
    (pts.map Prod.fst).Pairwise (· < ·) ∧
    (pts.map Prod.fst).head? = some 0 ∧
    (pts.map Prod.fst).getLast? = some (sp.sum + th.sum) := by
  unfold trace at htr
  cases hb : build sp th d vs with
  | error e =>
    rw [traceWith_error fieldFn sp th d vs angle offset energy n e hb] at htr
    exact absurd htr (by simp)
  | ok p =>
    obtain ⟨st, vp⟩ := p
    rw [traceWith_ok fieldFn sp th d vs angle offset energy n st vp hb] at htr
    split_ifs at htr with hcond
    obtain ⟨hseg, hdia, hvp, hlt, hlv, hspnn, hthp, hd, hspne, hthne, hvsne⟩ :=
      build_ok_inv sp th d vs st vp hb
    have hzm : zmaxOf st = sp.sum + th.sum := by
      rw [zmaxOf, hseg]
      exact zip_sum_add sp th hlt
    have hzmpos : 0 < sp.sum + th.sum := sums_pos sp th hspnn hthp hthne
    obtain ⟨m, rfl⟩ : ∃ m, n = m + 2 := ⟨n - 2, by omega⟩
    have hmap := traceRun_ok_map_fst _ _ _ _ _ _ htr
    have hidx : m + 2 - 1 + 1 = m + 2 := by omega
    rw [hidx] at hmap
    simp only [zero_add, hzm] at hmap
    have hq : 0 < (sp.sum + th.sum) / (((m : ℚ) + 2) - 1) := by
      apply div_pos hzmpos
      linarith
    have hqcast : ((m + 2 : ℕ) : ℚ) - 1 = ((m : ℚ) + 2) - 1 := by push_cast; ring
    refine ⟨?_, hmap, ?_, ?_, ?_⟩
    · have hlen := congrArg List.length hmap
      simpa using hlen
    · rw [hmap, List.pairwise_map]
      refine (List.pairwise_lt_range (m + 2)).imp ?_
      intro a b hab
      rw [hqcast]
      exact mul_lt_mul_of_pos_right (by exact_mod_cast hab) hq
    · rw [hmap, List.range_succ_eq_map]
      simp
    · rw [hmap, List.range_succ, List.map_append]
      simp only [List.map_cons, List.map_nil]
      rw [List.getLast?_concat]
      have hm1 : ((m : ℚ) + 1) ≠ 0 := by positivity
      simp only [Option.some.injEq]
      push_cast
      rw [show ((m : ℚ) + 2 - 1) = (m : ℚ) + 1 by ring, mul_comm,
        div_mul_cancel₀ _ hm1]

/-- Claim C4, witness for the amended theorem: a concrete two-point trace
through a single 5 V electrode. -/
theorem c4_witness :
    ([((0 : ℚ), (0 : ℚ)), ((1/50 : ℚ), (0 : ℚ))] : List (ℚ × ℚ)).length = 2 ∧
    (([((0 : ℚ), (0 : ℚ)), ((1/50 : ℚ), (0 : ℚ))] : List (ℚ × ℚ)).map Prod.fst).getLast? =
      some (([(1/100 : ℚ)]).sum + ([(1/100 : ℚ)]).sum) := by
  have htr : trace [1/100] [1/100] (1/50) [5] 0 0 1 2 =
      Except.ok [(0, 0), (1/50, 0)] := by
    unfold trace
    rw [traceWith_ok fieldFn _ _ _ _ 0 0 1 2 _ _ build_single_ok, if_neg (by norm_num)]
    rw [traceRun_one _ _ _ _ _ (by norm_num [sanityBound])]
    norm_num [zmaxOf]
  have H := c4_amended_trace_samples [1/100] [1/100] (1/50) [5] 0 0 1 2
    [(0, 0), (1/50, 0)] (by norm_num) htr
  exact ⟨H.1, H.2.2.2.2⟩

/-- Claim C5: whenever numDatapoints < 2 or energy ≤ 0, `trace` fails
with ValidationError — it returns no sample sequence at all, on any
input. -/
theorem c5_trace_validation (sp th : List ℚ) (d : ℚ) (vs : List ℚ)
    (angle offset energy : ℚ) (n : ℕ) (hinv : n < 2 ∨ energy ≤ 0) :
    trace sp th d vs angle offset energy n = Except.error SimError.validationError := by
  unfold trace
  cases hb : build sp th d vs with
  | error e =>
    rw [traceWith_error fieldFn sp th d vs angle offset energy n e hb,
      build_error_eq sp th d vs e hb]
  | ok p =>
    obtain ⟨st, vp⟩ := p
    rw [traceWith_ok fieldFn sp th d vs angle offset energy n st vp hb, if_pos hinv]

/-- Claim C5, witness: numDatapoints = 1 and energy = 0 both fail with
ValidationError on an otherwise valid lens. -/
theorem c5_witness :
    trace [1/100] [1/100] (1/50) [5] 0 0 1 1 = Except.error SimError.validationError ∧
    trace [1/100] [1/100] (1/50) [5] 0 0 0 5 = Except.error SimError.validationError :=
  ⟨c5_trace_validation [1/100] [1/100] (1/50) [5] 0 0 1 1 (Or.inl (by norm_num)),
   c5_trace_validation [1/100] [1/100] (1/50) [5] 0 0 0 5 (Or.inr le_rfl)⟩

/-- Claim C6: `build` fails with ValidationError exactly when the
sequences have mismatched lengths, some spacing is negative, some
thickness or the diameter is ≤ 0, or some sequence is empty; and on
mismatched spacings/voltages the facade fails with ValidationError for
every potential-field computation whatsoever — the failure happens
before any field computation can matter. -/
theorem c6_build_validation (sp th : List ℚ) (d : ℚ) (vs : List ℚ) :
    (build sp th d vs = Except.error SimError.validationError ↔
      (sp.length ≠ th.length ∨ sp.length ≠ vs.length ∨ th.length ≠ vs.length) ∨
      (∃ x ∈ sp, x < 0) ∨ (∃ x ∈ th, x ≤ 0) ∨ d ≤ 0 ∨
      sp = [] ∨ th = [] ∨ vs = []) ∧
    (sp.length ≠ vs.length →
      ∀ g : LensStack → VoltageProfile → ℚ → ℚ × ℚ × ℚ,
        focal_lengthWith g sp th d vs = Except.error SimError.validationError) := by
  constructor
  · unfold build
    split_ifs with h₁ h₂ h₃ h₄ h₅
    · exact iff_of_true rfl (Or.inl (h₁.elim Or.inl (fun h => Or.inr (Or.inl h))))
    · exact iff_of_true rfl (Or.inr (Or.inl h₂))
    · exact iff_of_true rfl (Or.inr (Or.inr (Or.inl h₃)))
    · exact iff_of_true rfl (Or.inr (Or.inr (Or.inr (Or.inl h₄))))
    · exact iff_of_true rfl (Or.inr (Or.inr (Or.inr (Or.inr h₅))))
    · refine iff_of_false (by simp) ?_
      push_neg at h₁ h₅
      rintro ((h | h | h) | h | h | h | h | h | h)
      · exact h h₁.1
      · exact h h₁.2
      · exact h (h₁.1 ▸ h₁.2)
      · exact h₂ h
      · exact h₃ h
      · exact h₄ h
      · exact h₅.1 h
      · exact h₅.2.1 h
      · exact h₅.2.2 h
  · intro hne g
    exact focal_lengthWith_error g sp th d vs SimError.validationError
      (by unfold build; rw [if_pos (Or.inr hne)])

/-- Claim C6, witness: a concrete length mismatch is rejected, and the
facade rejects it identically under an arbitrary field function. -/
theorem c6_witness :
    build [(1 : ℚ)] [1, 1] 1 [1] = Except.error SimError.validationError ∧
    focal_lengthWith (fun _ _ _ => (0, 0, 0)) [(1 : ℚ), 2] [1, 1] 1 [1] =
      Except.error SimError.validationError :=
  ⟨(c6_build_validation [1] [1, 1] 1 [1]).1.mpr (Or.inl (Or.inl (by decide))),
   (c6_build_validation [1, 2] [1, 1] 1 [1]).2 (by decide) (fun _ _ _ => (0, 0, 0))⟩

/-- Claim C7: with all voltages equal, the PotentialField is constant
over [0, z_max] with both derivatives exactly zero, and `focal_length`
reports the "undefined" (non-converging) sentinel, not a number. -/
theorem c7_uniform_potential (sp th : List ℚ) (d : ℚ) (vs : List ℚ) (c : ℚ)
    (st : LensStack) (vp : VoltageProfile)
    (hb : build sp th d vs = Except.ok (st, vp)) (hc : ∀ v ∈ vs, v = c) :
    (∀ z : ℚ, 0 ≤ z → z ≤ zmaxOf st → potential_at st vp z = Except.ok (c, 0, 0)) ∧
    focal_length sp th d vs = Except.ok FocalResult.undefined := by
  obtain ⟨hseg, hdia, hvp, hlt, hlv, hspnn, hthp, hd, hspne, hthne, hvsne⟩ :=
    build_ok_inv sp th d vs st vp hb
  have hf : ∀ z, fieldFn st vp z = (c, 0, 0) :=
    fieldFn_const st vp c (hvp.symm ▸ hvsne) (fun v hv => hc v (hvp ▸ hv))
  constructor
  · intro z hz0 hzm
    unfold potential_at
    rw [if_neg (by rintro (h | h) <;> linarith), hf z]
  · unfold focal_length
    rw [focal_lengthWith_ok fieldFn sp th d vs st vp hb,
      focalSolveWith_ok (fieldFn st vp) (zmaxOf st) (zmaxOf st - exitPlaneOf st) 1 0
        (integrate_const (fieldFn st vp) c hf _ _ _),
      if_pos (by norm_num [epsSlope])]

/-- Claim C7, witness: a single 5 V electrode — the field is (5, 0, 0)
at z = 1/100 and the focal length is the undefined sentinel. -/
theorem c7_witness :
    potential_at (LensStack.mk [(1/100, 1/100)] (1/50)) [5] (1/100) =
      Except.ok (5, 0, 0) ∧
    focal_length [1/100] [1/100] (1/50) [5] = Except.ok FocalResult.undefined := by
  have H := c7_uniform_potential [1/100] [1/100] (1/50) [5] 5
    (LensStack.mk [(1/100, 1/100)] (1/50)) [5] build_single_ok (by simp)
  exact ⟨H.1 (1/100) (by norm_num) (by norm_num [zmaxOf]), H.2⟩

/-- Claim C8: the focal-length solver's division is guarded on every
path — whenever the integrated exit slope satisfies |r'(z_max)| ≤ ε the
solver returns the undefined/parallel sentinel, and only when
|r'(z_max)| > ε does it return wd + (−r(z_max)/r'(z_max)). -/
theorem c8_guarded_division (f : ℚ → ℚ × ℚ × ℚ) (zm wd r s : ℚ)
    (hint : integrateRay f (zm / (stepCount zm : ℚ)) (stepCount zm) 0 (1, 0) =
      Except.ok (r, s)) :
    (|s| ≤ epsSlope → focalSolveWith f zm wd = Except.ok FocalResult.undefined) ∧
    (epsSlope < |s| →
      focalSolveWith f zm wd = Except.ok (FocalResult.value (wd + -(r / s)))) := by
  constructor
  · intro hs
    rw [focalSolveWith_ok f zm wd r s hint, if_pos hs]
  · intro hs
    rw [focalSolveWith_ok f zm wd r s hint, if_neg (not_le.mpr hs)]

/-- Claim C8, witness: on the uniform 5 V single-electrode field the
reference ray exits with slope 0, within ε, and the solver returns the
undefined sentinel. -/
theorem c8_witness :
    focalSolveWith (fieldFn (LensStack.mk [(1/100, 1/100)] (1/50)) [5]) (1/50) 0 =
      Except.ok FocalResult.undefined :=
  (c8_guarded_division (fieldFn (LensStack.mk [(1/100, 1/100)] (1/50)) [5]) (1/50) 0 1 0
    (integrate_const _ 5 (fieldFn_const _ _ 5 (by simp) (by simp)) _ _ _)).1
    (by norm_num [epsSlope])

end EinzelLens
